import Mathlib

/-
Verification of `src/property_calculator.py` (molecular property scoring and
multi-objective reward aggregation).

Shallow embedding conventions:
  * Python floats are modelled as real numbers (ℝ).
  * A parsed RDKit molecule is modelled as a `Mol` record holding the values the
    external Descriptor Provider (RDKit) would return for it; descriptor calls
    such as `Descriptors.TPSA(mol)` become field projections.
  * `Chem.MolFromSmiles` (which returns `None` on parse failure), the
    valency/sanitization check and the PAINS catalog match are external
    collaborators and are passed to `calculate_advanced_properties` as
    function parameters `parse`, `check_valency`, `has_pains`.
  * The optional `sascorer` module is an `Option (Mol → ℝ)`: `some f` models an
    environment where the import succeeds, `none` the ImportError fallback path.
  * A fallible ML predictor (`model.predict(features)[0]`, which may raise) is a
    function `List ℝ → Except Unit ℝ`; `Except.error ()` models a raised
    exception, which the evaluator's `try/except` block converts to `None`.
  * A Python dict-based property record is a `Props` structure; keys that may be
    absent from the dict (`pIC50_*`, `Selectivity_Score`) are `Option ℝ` fields,
    `none` meaning "key not in dict".  `props.get(k, d)` becomes `Option.getD`.
-/

/-- Descriptor values of a parsed molecule, as returned by the external
cheminformatics toolkit.  `MolLogP` is `Descriptors.MolLogP`,
`Crippen_MolLogP` is `Crippen.MolLogP` (used only by the BBB heuristic);
they are kept separate because the source calls two different functions. -/
structure Mol where
  MolLogP : ℝ
  Crippen_MolLogP : ℝ
  MolWt : ℝ
  TPSA : ℝ
  NumHAcceptors : ℝ
  NumHDonors : ℝ
  NumRotatableBonds : ℝ
  FractionCSP3 : ℝ
  RingCount : ℝ
  NumAromaticRings : ℝ
  HeavyAtomCount : ℝ
  qed : ℝ
  fingerprint : List ℝ

/-- A potency-prediction model (`keap1_m`, `egfr_m`, `ikkb_m`); `predict` may
raise, modelled by `Except.error ()`. -/
structure Predictor where
  predict : List ℝ → Except Unit ℝ

/-- The property record built by `calculate_advanced_properties` (a Python
dict).  The four predictor-derived keys may be absent (`none`). -/
structure Props where
  SMILES : String
  QED : ℝ
  CNS_MPO : ℝ
  SA_Score : ℝ
  RingCount : ℝ
  MolWt : ℝ
  BBB_Score : ℝ
  pIC50_KEAP1 : Option ℝ
  pIC50_EGFR : Option ℝ
  pIC50_IKKb : Option ℝ
  Selectivity_Score : Option ℝ

/-- `calculate_sa_score` (lines 20-33).  `sascorer = some f` is the environment
where `import sascorer` succeeds; `none` triggers the fallback approximation
`min(2.5 + 0.1*(mw/100) + 0.2*rot_bonds + 0.3*|logp - 2.5|, 10.0)`. -/
noncomputable def calculate_sa_score (sascorer : Option (Mol → ℝ)) (mol : Mol) : ℝ :=
  match sascorer with
  | some f => f mol
  | none =>
      min (2.5 + 0.1 * (mol.MolWt / 100) + 0.2 * mol.NumRotatableBonds
            + 0.3 * |mol.MolLogP - 2.5|) 10.0

/-- `calculate_cns_mpo` (lines 57-67): mean of four Gaussian-style response
scores.  The `any(p is None ...)` guard is dead in this model since descriptor
values are total. -/
noncomputable def calculate_cns_mpo (mol : Mol) : ℝ :=
  ((Real.exp (-((mol.MolLogP - 2.5) ^ 2) / 2)
    + Real.exp (-((mol.TPSA - 75) ^ 2) / (2 * 30 ^ 2))
    + Real.exp (-((mol.MolWt - 400) ^ 2) / (2 * 100 ^ 2))
    + (if mol.NumHDonors > 2.5 then Real.exp (-(mol.NumHDonors - 2.5)) else 1.0)) / 4)

/-- The BBB heuristic computed inline in `calculate_advanced_properties`
(lines 117-119): start at 1.0 and subtract three independent 0.1 penalties. -/
noncomputable def bbb_score (mol : Mol) : ℝ :=
  1.0 - (if mol.TPSA > 90 then 0.1 else 0)
      - (if mol.NumHDonors > 5 then 0.1 else 0)
      - (if mol.Crippen_MolLogP > 5 then 0.1 else 0)

/-- `get_features` (lines 86-96): fingerprint bits concatenated with ten named
descriptors, in the fixed source order. -/
def get_features (mol : Mol) : List ℝ :=
  mol.fingerprint ++
    [mol.MolLogP, mol.MolWt, mol.TPSA, mol.NumHAcceptors, mol.NumHDonors,
     mol.NumRotatableBonds, mol.FractionCSP3, mol.RingCount,
     mol.NumAromaticRings, mol.HeavyAtomCount]

/-- `calculate_advanced_properties` (lines 98-140).  Returns `none` when the
SMILES fails to parse, fails the valency check, matches a PAINS alert, or —
when all three predictor models are supplied — when any predictor call raises.
Otherwise returns the property record; the predictor block appends its four
keys only when all three predictions succeed. -/
noncomputable def calculate_advanced_properties
    (parse : String → Option Mol) ( check_valency : Mol → Bool)
    ( has_pains : Mol → Bool) (sascorer : Option (Mol → ℝ))
    (smiles : String) (keap1_m egfr_m ikkb_m : Option Predictor) : Option Props :=
  match parse smiles with
  | none => none
  | some mol =>
    if ! check_valency mol || has_pains mol then none
    else
      let result : Props :=
        { SMILES := smiles
          QED := mol.qed
          CNS_MPO := calculate_cns_mpo mol
          SA_Score := calculate_sa_score sascorer mol
          RingCount := mol.RingCount
          MolWt := mol.MolWt
          BBB_Score := bbb_score mol
          pIC50_KEAP1 := none
          pIC50_EGFR := none
          pIC50_IKKb := none
          Selectivity_Score := none }
      match keap1_m, egfr_m, ikkb_m with
      | some keap1, some egfr, some ikkb =>
        let features := get_features mol
        match keap1.predict features, egfr.predict features, ikkb.predict features with
        | Except.ok pic50_keap1, Except.ok pic50_egfr, Except.ok pic50_ikkb =>
          some { result with
                  pIC50_KEAP1 := some pic50_keap1
                  pIC50_EGFR := some pic50_egfr
                  pIC50_IKKb := some pic50_ikkb
                  Selectivity_Score := some (pic50_keap1 - max pic50_egfr pic50_ikkb) }
        | _, _, _ => none
      | _, _, _ => some result

/-- `_sigmoid` (lines 151-153): logistic squashing, returning 0.0 on a `None`
argument. -/
noncomputable def _sigmoid (x : Option ℝ) (k x0 : ℝ) : ℝ :=
  match x with
  | none => 0.0
  | some v => 1 / (1 + Real.exp (-k * (v - x0)))

/-- The six named objective weights of `calculate_multi_objective_reward`. -/
structure Weights where
  r_pic50 : ℝ
  r_sel : ℝ
  r_qed : ℝ
  r_cns : ℝ
  r_bbb : ℝ
  r_sa : ℝ

/-- The default weight dict (line 159). -/
noncomputable def initial_weights : Weights :=
  { r_pic50 := 0.35, r_sel := 0.20, r_qed := 0.15, r_cns := 0.10, r_bbb := 0.10, r_sa := 0.10 }

/-- The weight dict after the in-place redistribution of lines 168-174: when
`pIC50_KEAP1` is not a key of the record, the potency and selectivity weights
are zeroed and half their combined mass is added to each of the QED and SA
weights. -/
noncomputable def effective_weights (props : Props) : Weights :=
  if props.pIC50_KEAP1.isNone then
    { r_pic50 := 0
      r_sel := 0
      r_qed := initial_weights.r_qed + (initial_weights.r_pic50 + initial_weights.r_sel) * 0.5
      r_cns := initial_weights.r_cns
      r_bbb := initial_weights.r_bbb
      r_sa := initial_weights.r_sa + (initial_weights.r_pic50 + initial_weights.r_sel) * 0.5 }
  else initial_weights

/-- `sum(weights.values())` (line 176). -/
noncomputable def total_weight (w : Weights) : ℝ :=
  w.r_pic50 + w.r_sel + w.r_qed + w.r_cns + w.r_bbb + w.r_sa

/-- The six per-objective sigmoid scores of lines 161-166.  `props.get(k, d)`
on an optional key is `Option.getD`; required keys are read directly. -/
noncomputable def r_pic50 (p : Props) : ℝ := _sigmoid (some (p.pIC50_KEAP1.getD 0.0)) 2.0 7.5

/-- Selectivity objective score (line 162). -/
noncomputable def r_sel (p : Props) : ℝ := _sigmoid (some (p.Selectivity_Score.getD 0.0)) 1.5 2.5

/-- QED objective score (line 163). -/
noncomputable def r_qed (p : Props) : ℝ := _sigmoid (some p.QED) 10 0.6

/-- CNS objective score (line 164). -/
noncomputable def r_cns (p : Props) : ℝ := _sigmoid (some p.CNS_MPO) 15 0.5

/-- BBB objective score (line 165). -/
noncomputable def r_bbb (p : Props) : ℝ := _sigmoid (some p.BBB_Score) 10 0.7

/-- SA objective score (line 166): sigmoid of the negated SA score. -/
noncomputable def r_sa (p : Props) : ℝ := _sigmoid (some (-p.SA_Score)) 1.0 (-3.5)

/-- The normalized weighted sum of lines 179-183. -/
noncomputable def weighted_score (p : Props) : ℝ :=
  let weights := effective_weights p
  (weights.r_pic50 * r_pic50 p + weights.r_sel * r_sel p
    + weights.r_qed * r_qed p + weights.r_cns * r_cns p
    + weights.r_bbb * r_bbb p + weights.r_sa * r_sa p) / total_weight weights

/-- `calculate_multi_objective_reward` (lines 155-185).  `none` models both a
`None` record and the falsy empty dict; `np.clip(score, 0, 1)` is
`min (max score 0) 1`. -/
noncomputable def calculate_multi_objective_reward (props : Option Props) : ℝ :=
  match props with
  | none => 0.01
  | some p =>
      if total_weight (effective_weights p) = 0 then 0.01
      else min (max (weighted_score p) 0) 1

/-
Concrete fixtures used to exercise the definitions (an ethanol-like molecule
with TPSA pushed above 90 so one BBB penalty fires, evaluated without
predictor models and without the sascorer module).
-/

/-- A concrete molecule: descriptor values an external toolkit could return. -/
noncomputable def testMol : Mol :=
  { MolLogP := 1.0, Crippen_MolLogP := 6.0, MolWt := 46.07, TPSA := 100,
    NumHAcceptors := 1, NumHDonors := 1, NumRotatableBonds := 1,
    FractionCSP3 := 0.5, RingCount := 0, NumAromaticRings := 0,
    HeavyAtomCount := 3, qed := 0.4, fingerprint := [] }

/-- The property record `calculate_advanced_properties` builds for `testMol`
when no predictor models are supplied. -/
noncomputable def testRec : Props :=
  { SMILES := "CCO", QED := testMol.qed, CNS_MPO := calculate_cns_mpo testMol,
    SA_Score := calculate_sa_score none testMol, RingCount := testMol.RingCount,
    MolWt := testMol.MolWt, BBB_Score := bbb_score testMol,
    pIC50_KEAP1 := none, pIC50_EGFR := none, pIC50_IKKb := none,
    Selectivity_Score := none }

/-- A predictor whose `predict` always raises. -/
def failPredictor : Predictor := ⟨fun _ => Except.error ()⟩

lemma eval_testMol :
    calculate_advanced_properties (fun _ => some testMol) (fun _ => true)
      (fun _ => false) none "CCO" none none none = some testRec := rfl

/- Helper lemmas shared by the claim theorems. -/

lemma bbb_score_bounds (mol : Mol) : 0.7 ≤ bbb_score mol ∧ bbb_score mol ≤ 1 := by
  unfold bbb_score
  split_ifs <;> norm_num

/-- Shape of any record the evaluator returns: it comes from a successfully
parsed, valency-clean, PAINS-free molecule, its BBB field is the heuristic
value, and its four optional predictor keys are all present (with the
selectivity key derived from the three potencies) or all absent. -/
lemma calc_shape (parse : String → Option Mol) (cv hp : Mol → Bool)
    (sascorer : Option (Mol → ℝ)) (smiles : String)
    (keap1_m egfr_m ikkb_m : Option Predictor) (rec : Props)
    (hr : calculate_advanced_properties parse cv hp sascorer smiles
            keap1_m egfr_m ikkb_m = some rec) :
    ∃ mol, parse smiles = some mol ∧ cv mol = true ∧ hp mol = false ∧
      rec.BBB_Score = bbb_score mol ∧
      ((∃ pk pe pi, rec.pIC50_KEAP1 = some pk ∧ rec.pIC50_EGFR = some pe ∧
          rec.pIC50_IKKb = some pi ∧
          rec.Selectivity_Score = some (pk - max pe pi)) ∨
        (rec.pIC50_KEAP1 = none ∧ rec.pIC50_EGFR = none ∧
          rec.pIC50_IKKb = none ∧ rec.Selectivity_Score = none)) := by
  unfold calculate_advanced_properties at hr
  cases hmol : parse smiles with
  | none => rw [hmol] at hr; exact absurd hr (by simp)
  | some mol =>
    rw [hmol] at hr
    dsimp only at hr
    refine ⟨mol, rfl, ?_⟩
    by_cases hv : (! cv mol || hp mol) = true
    · rw [if_pos hv] at hr; exact absurd hr (by simp)
    · rw [if_neg hv] at hr
      simp only [Bool.or_eq_true, Bool.not_eq_true', not_or,
        Bool.not_eq_true, Bool.not_eq_false] at hv
      refine ⟨hv.1, hv.2, ?_⟩
      cases keap1_m with
      | none =>
        simp only [] at hr
        cases hr
        exact ⟨rfl, Or.inr ⟨rfl, rfl, rfl, rfl⟩⟩
      | some keap1 =>
        cases egfr_m with
        | none =>
          simp only [] at hr
          cases hr
          exact ⟨rfl, Or.inr ⟨rfl, rfl, rfl, rfl⟩⟩
        | some egfr =>
          cases ikkb_m with
          | none =>
            simp only [] at hr
            cases hr
            exact ⟨rfl, Or.inr ⟨rfl, rfl, rfl, rfl⟩⟩
          | some ikkb =>
            simp only [] at hr
            cases hk : keap1.predict (get_features mol) with
            | error e => rw [hk] at hr; exact absurd hr (by simp)
            | ok pk =>
              cases he : egfr.predict (get_features mol) with
              | error e => rw [hk, he] at hr; exact absurd hr (by simp)
              | ok pe =>
                cases hi : ikkb.predict (get_features mol) with
                | error e => rw [hk, he, hi] at hr; exact absurd hr (by simp)
                | ok pi =>
                  rw [hk, he, hi] at hr
                  cases hr
                  exact ⟨rfl, Or.inl ⟨pk, pe, pi, rfl, rfl, rfl, rfl⟩⟩

lemma total_weight_effective (p : Props) : total_weight (effective_weights p) = 1 := by
  unfold total_weight effective_weights initial_weights
  by_cases h : p.pIC50_KEAP1.isNone = true <;> simp only [h, if_true, if_false] <;> norm_num

lemma sigmoid_mono {k : ℝ} (hk : 0 ≤ k) (x0 : ℝ) {a b : ℝ} (h : a ≤ b) :
    _sigmoid (some a) k x0 ≤ _sigmoid (some b) k x0 := by
  unfold _sigmoid
  have h1 : -k * (b - x0) ≤ -k * (a - x0) := by nlinarith
  have h2 : Real.exp (-k * (b - x0)) ≤ Real.exp (-k * (a - x0)) := Real.exp_le_exp.mpr h1
  have h3 : (0 : ℝ) < 1 + Real.exp (-k * (b - x0)) := by positivity
  exact one_div_le_one_div_of_le h3 (by linarith)

lemma sigmoid_nonneg (x : Option ℝ) (k x0 : ℝ) : 0 ≤ _sigmoid x k x0 := by
  unfold _sigmoid
  cases x with
  | none => norm_num
  | some v => positivity

/-- C1: the claim asserts the redistributed weights are
`{0, 0, 0.15+0.125, 0.10, 0.10, 0.10+0.125}`; on the concrete predictor-free
record `testRec` the code instead produces a QED weight of
`0.15 + (0.35+0.20)*0.5 = 0.425 ≠ 0.275`. -/
theorem C1_counterexample :
    effective_weights testRec ≠
      { r_pic50 := 0, r_sel := 0, r_qed := 0.15 + 0.125, r_cns := 0.10,
        r_bbb := 0.10, r_sa := 0.10 + 0.125 } := by
  intro h
  have hk : testRec.pIC50_KEAP1.isNone = true := rfl
  rw [effective_weights, if_pos hk] at h
  have h2 := congrArg Weights.r_qed h
  simp only [initial_weights] at h2
  norm_num at h2

/-- C1 (amended): for every record lacking the `pIC50_KEAP1` key, the effective
weights are `{potency: 0, selectivity: 0, drug-likeness: 0.15+0.275,
CNS: 0.10, BBB: 0.10, synthesis-ease: 0.10+0.275}` — the combined potency and
selectivity mass `0.55` is split 50/50, i.e. `+0.275` (not `+0.125`) onto the
drug-likeness and synthesis-ease weights, before normalization. -/
theorem C1_amended (p : Props) (h : p.pIC50_KEAP1 = none) :
    effective_weights p =
      { r_pic50 := 0, r_sel := 0, r_qed := 0.15 + 0.275, r_cns := 0.10,
        r_bbb := 0.10, r_sa := 0.10 + 0.275 } := by
  have hk : p.pIC50_KEAP1.isNone = true := by rw [h]; rfl
  rw [effective_weights, if_pos hk]
  simp only [initial_weights, Weights.mk.injEq]
  norm_num

/-- C1 (amended) at the concrete record `testRec`. -/
theorem C1_amended_witness :
    effective_weights testRec =
      { r_pic50 := 0, r_sel := 0, r_qed := 0.15 + 0.275, r_cns := 0.10,
        r_bbb := 0.10, r_sa := 0.10 + 0.275 } :=
  C1_amended testRec rfl

/-- C10: for every record the effective weights sum to exactly 1, whether or
not the predictor keys are present, so the zero-total-weight floor branch of
`calculate_multi_objective_reward` is unreachable and the normalizing
denominator is always 1. -/
theorem C10_weights_sum_to_one (p : Props) :
    total_weight (effective_weights p) = 1 ∧ total_weight (effective_weights p) ≠ 0 :=
  ⟨total_weight_effective p, by rw [total_weight_effective p]; norm_num⟩

/-- C2: the claim asserts some molecule gets a negative BBB heuristic score
(e.g. -0.2).  In fact the three penalties subtract at most 0.3 in total, so no
record the evaluator returns ever has `BBB_Score < 0`: the claim is false. -/
theorem C2_counterexample :
    ¬ ∃ (parse : String → Option Mol) (cv hp : Mol → Bool)
        (sascorer : Option (Mol → ℝ)) (smiles : String)
        (keap1_m egfr_m ikkb_m : Option Predictor) (rec : Props),
      calculate_advanced_properties parse cv hp sascorer smiles
          keap1_m egfr_m ikkb_m = some rec ∧ rec.BBB_Score < 0 := by
  rintro ⟨parse, cv, hp, sas, smiles, km, em, im, rec, hr, hneg⟩
  obtain ⟨mol, -, -, -, hbbb, -⟩ := calc_shape parse cv hp sas smiles km em im rec hr
  have hlow := (bbb_score_bounds mol).1
  rw [hbbb] at hneg
  linarith

/-- C2 (amended): the BBB heuristic is unclamped but cannot go negative: every
record the evaluator returns has its BBB score in `[0.7, 1.0]` (three
independent 0.1 penalties subtracted from 1.0). -/
theorem C2_amended (parse : String → Option Mol) (cv hp : Mol → Bool)
    (sascorer : Option (Mol → ℝ)) (smiles : String)
    (keap1_m egfr_m ikkb_m : Option Predictor) (rec : Props)
    (hr : calculate_advanced_properties parse cv hp sascorer smiles
            keap1_m egfr_m ikkb_m = some rec) :
    0.7 ≤ rec.BBB_Score ∧ rec.BBB_Score ≤ 1 := by
  obtain ⟨mol, -, -, -, hbbb, -⟩ :=
    calc_shape parse cv hp sascorer smiles keap1_m egfr_m ikkb_m rec hr
  rw [hbbb]
  exact bbb_score_bounds mol

/-- C2 (amended) at the concrete evaluation of `testMol`. -/
theorem C2_amended_witness : 0.7 ≤ testRec.BBB_Score ∧ testRec.BBB_Score ≤ 1 :=
  C2_amended (fun _ => some testMol) (fun _ => true) (fun _ => false) none
    "CCO" none none none testRec eval_testMol

/-- C3: every record the evaluator returns for a parsed molecule carries
`BBB_Score = 1.0 - (0.1 if TPSA > 90) - (0.1 if H-bond donors > 5)
- (0.1 if Crippen logP > 5)`, each penalty independently 0 or 0.1. -/
theorem C3_bbb_formula (parse : String → Option Mol) (cv hp : Mol → Bool)
    (sascorer : Option (Mol → ℝ)) (smiles : String)
    (keap1_m egfr_m ikkb_m : Option Predictor) (mol : Mol) (rec : Props)
    (hm : parse smiles = some mol)
    (hr : calculate_advanced_properties parse cv hp sascorer smiles
            keap1_m egfr_m ikkb_m = some rec) :
    rec.BBB_Score = 1.0 - (if mol.TPSA > 90 then 0.1 else 0)
      - (if mol.NumHDonors > 5 then 0.1 else 0)
      - (if mol.Crippen_MolLogP > 5 then 0.1 else 0) := by
  obtain ⟨mol', hm', -, -, hbbb, -⟩ :=
    calc_shape parse cv hp sascorer smiles keap1_m egfr_m ikkb_m rec hr
  rw [hm] at hm'
  injection hm' with h
  subst h
  exact hbbb

/-- C3 at the concrete evaluation of `testMol` (only the TPSA penalty fires). -/
theorem C3_bbb_formula_witness :
    testRec.BBB_Score = 1.0 - (if testMol.TPSA > 90 then 0.1 else 0)
      - (if testMol.NumHDonors > 5 then 0.1 else 0)
      - (if testMol.Crippen_MolLogP > 5 then 0.1 else 0) :=
  C3_bbb_formula (fun _ => some testMol) (fun _ => true) (fun _ => false) none
    "CCO" none none none testMol testRec rfl eval_testMol

/-- C9: the evaluator rejects silently: a SMILES that fails to parse, fails
the valency check, or matches a PAINS alert yields `none` (the embedding is a
total function, so no exception reaches the caller). -/
theorem C9_reject_paths (parse : String → Option Mol) (cv hp : Mol → Bool)
    (sascorer : Option (Mol → ℝ)) (smiles : String)
    (keap1_m egfr_m ikkb_m : Option Predictor) :
    (parse smiles = none →
      calculate_advanced_properties parse cv hp sascorer smiles
        keap1_m egfr_m ikkb_m = none) ∧
    (∀ mol, parse smiles = some mol → (cv mol = false ∨ hp mol = true) →
      calculate_advanced_properties parse cv hp sascorer smiles
        keap1_m egfr_m ikkb_m = none) := by
  constructor
  · intro h
    unfold calculate_advanced_properties
    rw [h]
  · intro mol hm hbad
    unfold calculate_advanced_properties
    rw [hm]
    dsimp only
    have hv : (! cv mol || hp mol) = true := by
      rcases hbad with h | h <;> simp [h]
    rw [if_pos hv]

/-- C9 at a concrete unparsable encoding. -/
theorem C9_reject_paths_witness :
    calculate_advanced_properties (fun _ => none) (fun _ => true)
      (fun _ => false) none "not_a_smiles" none none none = none :=
  (C9_reject_paths (fun _ => none) (fun _ => true) (fun _ => false) none
    "not_a_smiles" none none none).1 rfl

/-- C6: (1) any record the evaluator returns has the three potency keys and
the selectivity key all present or all absent; (2) when all three predictors
are supplied and any of them raises, the evaluator returns `none` — it never
returns a partially populated record. -/
theorem C6_predictor_atomicity (parse : String → Option Mol) (cv hp : Mol → Bool)
    (sascorer : Option (Mol → ℝ)) (smiles : String)
    (keap1_m egfr_m ikkb_m : Option Predictor) :
    (∀ rec, calculate_advanced_properties parse cv hp sascorer smiles
        keap1_m egfr_m ikkb_m = some rec →
      ((rec.pIC50_KEAP1.isSome ∧ rec.pIC50_EGFR.isSome ∧ rec.pIC50_IKKb.isSome ∧
          rec.Selectivity_Score.isSome) ∨
        (rec.pIC50_KEAP1 = none ∧ rec.pIC50_EGFR = none ∧ rec.pIC50_IKKb = none ∧
          rec.Selectivity_Score = none))) ∧
    (∀ keap1 egfr ikkb mol, keap1_m = some keap1 → egfr_m = some egfr →
      ikkb_m = some ikkb → parse smiles = some mol →
      (keap1.predict (get_features mol) = Except.error () ∨
        egfr.predict (get_features mol) = Except.error () ∨
        ikkb.predict (get_features mol) = Except.error ()) →
      calculate_advanced_properties parse cv hp sascorer smiles
        keap1_m egfr_m ikkb_m = none) := by
  constructor
  · intro rec hr
    obtain ⟨mol, -, -, -, -, hshape⟩ :=
      calc_shape parse cv hp sascorer smiles keap1_m egfr_m ikkb_m rec hr
    rcases hshape with ⟨pk, pe, pi, h1, h2, h3, h4⟩ | hnone
    · exact Or.inl ⟨by rw [h1]; rfl, by rw [h2]; rfl, by rw [h3]; rfl, by rw [h4]; rfl⟩
    · exact Or.inr hnone
  · intro keap1 egfr ikkb mol hk he hi hm herr
    subst hk; subst he; subst hi
    unfold calculate_advanced_properties
    rw [hm]
    dsimp only
    by_cases hv : (! cv mol || hp mol) = true
    · rw [if_pos hv]
    · rw [if_neg hv]
      rcases h1 : keap1.predict (get_features mol) with e1 | pk <;>
        rcases h2 : egfr.predict (get_features mol) with e2 | pe <;>
          rcases h3 : ikkb.predict (get_features mol) with e3 | pi <;>
            try rfl
      rcases herr with h | h | h
      · rw [h1] at h; exact absurd h (by simp)
      · rw [h2] at h; exact absurd h (by simp)
      · rw [h3] at h; exact absurd h (by simp)

/-- C6 at a concrete instance: three supplied predictors that all raise make
the evaluator return `none` for an otherwise valid molecule. -/
theorem C6_predictor_atomicity_witness :
    calculate_advanced_properties (fun _ => some testMol) (fun _ => true)
      (fun _ => false) none "CCO" (some failPredictor) (some failPredictor)
      (some failPredictor) = none :=
  (C6_predictor_atomicity (fun _ => some testMol) (fun _ => true)
      (fun _ => false) none "CCO" (some failPredictor) (some failPredictor)
      (some failPredictor)).2 failPredictor failPredictor failPredictor testMol
    rfl rfl rfl rfl (Or.inl rfl)

/-- C4: for every property record, whatever its numeric values (including
extreme SA scores), the reward lies in [0, 1]: both the 0.01 floor branch and
the `np.clip`ped weighted score are inside the unit interval. -/
theorem C4_reward_in_unit_interval (p : Props) :
    0 ≤ calculate_multi_objective_reward (some p) ∧
      calculate_multi_objective_reward (some p) ≤ 1 := by
  simp only [calculate_multi_objective_reward]
  by_cases h : total_weight (effective_weights p) = 0
  · rw [if_pos h]; norm_num
  · rw [if_neg h]
    exact ⟨le_min (le_max_right _ _) zero_le_one, min_le_right _ _⟩

/-- C5: a null/absent record gets the fixed floor reward 0.01, which is
strictly positive (never zero). -/
theorem C5_null_reward :
    calculate_multi_objective_reward none = 0.01 ∧ (0 : ℝ) < 0.01 :=
  ⟨rfl, by norm_num⟩

/-- C7: when the dedicated sascorer module is unavailable, `calculate_sa_score`
is the fallback approximation `2.5 + 0.1*(MW/100) + 0.2*rotatable_bonds
+ 0.3*|logP - 2.5|` capped at 10.0. -/
theorem C7_sa_fallback (mol : Mol) :
    calculate_sa_score none mol =
      min (2.5 + 0.1 * (mol.MolWt / 100) + 0.2 * mol.NumRotatableBonds
            + 0.3 * |mol.MolLogP - 2.5|) 10.0 := rfl

/-- C8: the reward is monotonically non-decreasing in the primary-target
potency estimate, all other record fields held fixed. -/
theorem C8_monotone_in_potency (p : Props) (a b : ℝ) (hab : a ≤ b) :
    calculate_multi_objective_reward (some { p with pIC50_KEAP1 := some a }) ≤
      calculate_multi_objective_reward (some { p with pIC50_KEAP1 := some b }) := by
  have hw : ∀ x : ℝ,
      effective_weights { p with pIC50_KEAP1 := some x } = initial_weights :=
    fun _ => rfl
  have htw : ∀ x : ℝ,
      total_weight (effective_weights { p with pIC50_KEAP1 := some x }) = 1 :=
    fun _ => total_weight_effective _
  simp only [calculate_multi_objective_reward]
  rw [if_neg (by rw [htw a]; norm_num), if_neg (by rw [htw b]; norm_num)]
  refine min_le_min (max_le_max ?_ le_rfl) le_rfl
  simp only [weighted_score, hw, r_pic50, r_sel, r_qed, r_cns, r_bbb, r_sa,
    Option.getD_some]
  have h1 : total_weight initial_weights = 1 := by
    norm_num [total_weight, initial_weights]
  rw [h1, div_one, div_one]
  have hs := sigmoid_mono (k := 2.0) (by norm_num) 7.5 hab
  have hmul : initial_weights.r_pic50 * _sigmoid (some a) 2.0 7.5 ≤
      initial_weights.r_pic50 * _sigmoid (some b) 2.0 7.5 :=
    mul_le_mul_of_nonneg_left hs (by norm_num [initial_weights])
  linarith

/-- C8 at concrete potencies 7 and 8 on the record `testRec`. -/
theorem C8_monotone_in_potency_witness :
    calculate_multi_objective_reward (some { testRec with pIC50_KEAP1 := some 7 }) ≤
      calculate_multi_objective_reward (some { testRec with pIC50_KEAP1 := some 8 }) :=
  C8_monotone_in_potency testRec 7 8 (by norm_num)
